import Mathlib

/-!
Shallow embedding of `ngraph/python/src/ngraph/opset6/ops.py`: the opset6
operator factory functions `ctc_greedy_decoder_seq_len` and `gather_elements`,
together with the graph-construction machinery they delegate to (input
normalization, attribute validation, the opset node factory and naming),
which is modelled from the specification where its code is not part of this
repository snapshot.

Graph construction is modelled by explicit state passing: a `Graph` holds the
list of nodes created so far and a construction-order counter used for fresh
node identities and auto-generated names.
-/

namespace NGraph

/-- A literal numeric value (scalar or array) that a caller may pass in place
of a node reference; corresponds to `NumericData` in the Python sources. -/
inductive Value where
  | scalar : Int → Value
  | arr : List Int → Value
deriving DecidableEq, Repr

/-- A Python value supplied as an operator attribute: a boolean, a string,
an integer, or Python `None` (written `null` here). -/
inductive AttrValue where
  | bool : Bool → AttrValue
  | str : String → AttrValue
  | int : Int → AttrValue
  | null : AttrValue
deriving DecidableEq, Repr

/-- The declared kind of an attribute in an operator schema. -/
inductive AttrKind where
  | bool
  | str
  | int
deriving DecidableEq, Repr

/-- The kind of a supplied attribute value; Python `None` has no kind. -/
def attrKind : AttrValue → Option AttrKind
  | .bool _ => some .bool
  | .str _ => some .str
  | .int _ => some .int
  | .null => none

/-- A graph node: identity, operator type name, ordered input edges
(identities of the producing nodes), validated attribute mapping, the
embedded literal value when the node is a Constant, and a display name. -/
structure Node where
  id : Nat
  op : String
  inputs : List Nat
  attrs : List (String × AttrValue)
  constVal : Option Value
  name : String
deriving DecidableEq, Repr

/-- Graph-construction state: all nodes created so far, in construction
order, and the construction-order counter providing fresh identities. -/
structure Graph where
  nodes : List Node
  counter : Nat
deriving DecidableEq, Repr

/-- A fresh graph with no nodes. -/
def emptyGraph : Graph := { nodes := [], counter := 0 }

/-- A caller-supplied operator input: either a reference to an existing
node's output, or a literal value; corresponds to `NodeInput` in
`ngraph.utils.types`. -/
inductive NodeInput where
  | node : Nat → NodeInput
  | lit : Value → NodeInput
deriving DecidableEq, Repr

/-- Modelled from the spec: `make_constant_node` (Input Normalizer, 4.1) —
wraps a literal value in a newly constructed Constant node, a new
independent graph vertex with no inputs and the value embedded. -/
def make_constant_node (v : Value) (g : Graph) : Graph × Nat :=
  let i := g.counter
  let node : Node :=
    { id := i, op := "Constant", inputs := [], attrs := [],
      constVal := some v, name := "Constant_" ++ toString i }
  ({ nodes := g.nodes ++ [node], counter := i + 1 }, i)

/-- Modelled from the spec: `as_node` (Input Normalizer, 4.1) — a value that
is already a node reference is passed through unchanged; a literal is
materialized as a new Constant node. -/
def as_node (x : NodeInput) (g : Graph) : Graph × Nat :=
  match x with
  | .node n => (g, n)
  | .lit v => make_constant_node v g

/-- Modelled from the spec: `as_nodes` (Input Normalizer, 4.1) — normalizes
an ordered sequence of caller-supplied values into an ordered list of node
references of the same length. -/
def as_nodes (xs : List NodeInput) (g : Graph) : Graph × List Nat :=
  match xs with
  | [] => (g, [])
  | x :: rest =>
    let (g1, n) := as_node x g
    let (g2, ns) := as_nodes rest g1
    (g2, n :: ns)

/-- Errors raised by graph construction (spec section 7). -/
inductive FactoryError where
  | InvalidInputKind : FactoryError
  | UnknownOperator : FactoryError
  | MissingRequiredAttribute : String → FactoryError
  | UnknownAttribute : String → FactoryError
  | AttributeTypeMismatch : String → FactoryError
  | InvalidEnumerationValue : String → FactoryError
  | AttributeConstraintViolation : String → FactoryError
deriving DecidableEq, Repr

/-- An operator's declared attribute schema: attribute name and kind. -/
def Schema := List (String × AttrKind)

/-- Modelled from the spec: the Opset Registry (4.3) — maps
(opset version, operator name) to the operator's attribute schema; the two
operators bound by this module are registered under "opset6". -/
def registry : String → String → Option Schema
  | "opset6", "CTCGreedyDecoderSeqLen" =>
      some [("merge_repeated", .bool),
            ("classes_index_type", .str),
            ("sequence_length_type", .str)]
  | "opset6", "GatherElements" =>
      some [("axis", .int)]
  | _, _ => none

/-- Modelled from the spec: Attribute Validator (4.2), supplied side — every
supplied attribute must be declared for the operator (else
`UnknownAttribute`) and its value's kind must match the declared kind (else
`AttributeTypeMismatch`). -/
def check_supplied (schema : Schema) :
    List (String × AttrValue) → Except FactoryError Unit
  | [] => .ok ()
  | (k, v) :: rest =>
    match (schema.find? (fun p => p.1 == k)).map Prod.snd with
    | none => .error (.UnknownAttribute k)
    | some kind =>
      if attrKind v = some kind then check_supplied schema rest
      else .error (.AttributeTypeMismatch k)

/-- Modelled from the spec: Attribute Validator (4.2), declared side — every
declared attribute must be resolved; with no schema defaults an absent one
fails with `MissingRequiredAttribute`. -/
def check_declared (attrs : List (String × AttrValue)) :
    Schema → Except FactoryError Unit
  | [] => .ok ()
  | (k, _) :: rest =>
    if (attrs.find? (fun p => p.1 == k)).isSome then check_declared attrs rest
    else .error (.MissingRequiredAttribute k)

/-- Modelled from the spec: Attribute Validator (4.2) — validates a supplied
attribute mapping against an operator schema. -/
def validate_attributes (schema : Schema) (attrs : List (String × AttrValue)) :
    Except FactoryError Unit :=
  match check_supplied schema attrs with
  | .error e => .error e
  | .ok _ => check_declared attrs schema

/-- A node factory bound to one opset version, as produced by
`_get_node_factory`. -/
structure NodeFactory where
  opset : String
deriving DecidableEq, Repr

/-- `_get_node_factory`: obtain the node factory for an opset version. -/
def _get_node_factory (opset : String) : NodeFactory := { opset := opset }

/-- Source line 56: `_get_node_factory_opset6 = partial(_get_node_factory, "opset6")`. -/
def _get_node_factory_opset6 : NodeFactory := _get_node_factory "opset6"

/-- Modelled from the spec: `NodeFactory.create` (4.3) with the Identity
Assigner (4.4) folded in — looks up (opset version, operator name) in the
registry (`UnknownOperator` when absent), validates the attribute mapping,
and on success appends a fully formed node whose input edges are the
normalized inputs; the display name is the explicit one when supplied,
otherwise synthesized from the operator type name and the construction-order
counter. On failure no operator node is created and the graph is returned
unchanged. -/
def NodeFactory.create (f : NodeFactory) (op : String) (inputs : List Nat)
    (attributes : List (String × AttrValue)) (name : Option String)
    (g : Graph) : Graph × Except FactoryError Node :=
  match registry f.opset op with
  | none => (g, .error .UnknownOperator)
  | some schema =>
    match validate_attributes schema attributes with
    | .error e => (g, .error e)
    | .ok _ =>
      let i := g.counter
      let node : Node :=
        { id := i, op := op, inputs := inputs, attrs := attributes,
          constVal := none,
          name := name.getD (op ++ "_" ++ toString i) }
      ({ nodes := g.nodes ++ [node], counter := i + 1 }, .ok node)

/-- The attribute dictionary built at source lines 84–88. -/
def ctc_attributes (merge_repeated classes_index_type sequence_length_type :
    AttrValue) : List (String × AttrValue) :=
  [("merge_repeated", merge_repeated),
   ("classes_index_type", classes_index_type),
   ("sequence_length_type", sequence_length_type)]

/-- `ctc_greedy_decoder_seq_len` (source lines 61–90): normalizes
`[data, sequence_length, blank_index]` when `blank_index` is supplied and
`[data, sequence_length]` otherwise, builds the attribute dictionary, and
delegates to the opset6 node factory. Attribute parameters are modelled as
arbitrary Python values (`AttrValue`), since Python does not enforce the
annotations; defaults mirror the source signature. -/
def ctc_greedy_decoder_seq_len (data sequence_length : NodeInput)
    (blank_index : Option NodeInput := none)
    (merge_repeated : AttrValue := .bool true)
    (classes_index_type : AttrValue := .str "i32")
    (sequence_length_type : AttrValue := .str "i32")
    (name : Option String := none)
    (g : Graph) : Graph × Except FactoryError Node :=
  let (g1, inputs) :=
    match blank_index with
    | some bi => as_nodes [data, sequence_length, bi] g
    | none => as_nodes [data, sequence_length] g
  _get_node_factory_opset6.create "CTCGreedyDecoderSeqLen" inputs
    (ctc_attributes merge_repeated classes_index_type sequence_length_type)
    name g1

/-- The attribute dictionary built at source lines 109–111. -/
def gather_attributes (axis : AttrValue) : List (String × AttrValue) :=
  [("axis", axis)]

/-- `gather_elements` (source lines 93–113): normalizes `[data, indices]`,
builds `{"axis": axis}` (default 0), and delegates to the opset6 node
factory. `axis` is modelled as an arbitrary Python value; the source default
`axis: Optional[int] = 0` becomes the default `.int 0`, and an explicit
Python `None` is `.null`. -/
def gather_elements (data indices : NodeInput)
    (axis : AttrValue := .int 0)
    (name : Option String := none)
    (g : Graph) : Graph × Except FactoryError Node :=
  let (g1, inputs) := as_nodes [data, indices] g
  _get_node_factory_opset6.create "GatherElements" inputs
    (gather_attributes axis) name g1

/-- One factory call of this module, with its input and attribute arguments
and no explicit name (used to state determinism of construction). -/
inductive Call where
  | ctc : NodeInput → NodeInput → Option NodeInput →
      AttrValue → AttrValue → AttrValue → Call
  | gather : NodeInput → NodeInput → AttrValue → Call
deriving DecidableEq, Repr

/-- The graph state after performing one factory call. -/
def runCall : Call → Graph → Graph
  | .ctc d s b mr cit slt, g =>
      (ctc_greedy_decoder_seq_len d s b mr cit slt none g).1
  | .gather d i ax, g => (gather_elements d i ax none g).1

/-- `BuildSeq cs g g'` holds when performing the sequence of factory calls
`cs` starting from graph `g` can end in graph `g'`. -/
inductive BuildSeq : List Call → Graph → Graph → Prop where
  | nil (g : Graph) : BuildSeq [] g g
  | cons (c : Call) (cs : List Call) (g g' : Graph) :
      BuildSeq cs (runCall c g) g' → BuildSeq (c :: cs) g g'

/- ------------------------- helper lemmas ------------------------- -/

theorem as_nodes_cons (x : NodeInput) (rest : List NodeInput) (g : Graph) :
    as_nodes (x :: rest) g =
      ((as_nodes rest (as_node x g).1).1,
       (as_node x g).2 :: (as_nodes rest (as_node x g).1).2) := rfl

theorem as_nodes_length (xs : List NodeInput) (g : Graph) :
    ((as_nodes xs g).2).length = xs.length := by
  induction xs generalizing g with
  | nil => rfl
  | cons x rest ih => rw [as_nodes_cons]; simp [ih]

theorem as_node_op_constant (x : NodeInput) (g : Graph) :
    ∀ n ∈ (as_node x g).1.nodes, n ∈ g.nodes ∨ n.op = "Constant" := by
  intro n hn
  cases x with
  | node m => exact Or.inl hn
  | lit v =>
    simp only [as_node, make_constant_node, List.mem_append,
      List.mem_singleton] at hn
    rcases hn with h | h
    · exact Or.inl h
    · subst h; exact Or.inr rfl

theorem as_nodes_op_constant (xs : List NodeInput) (g : Graph) :
    ∀ n ∈ (as_nodes xs g).1.nodes, n ∈ g.nodes ∨ n.op = "Constant" := by
  induction xs generalizing g with
  | nil => intro n hn; exact Or.inl hn
  | cons x rest ih =>
    intro n hn
    rw [as_nodes_cons] at hn
    rcases ih (as_node x g).1 n hn with h | h
    · exact as_node_op_constant x g n h
    · exact Or.inr h

theorem as_node_extends (x : NodeInput) (g : Graph) :
    ∃ new, (as_node x g).1.nodes = g.nodes ++ new := by
  cases x with
  | node m => exact ⟨[], (List.append_nil _).symm⟩
  | lit v => exact ⟨_, rfl⟩

theorem as_nodes_extends (xs : List NodeInput) (g : Graph) :
    ∃ new, (as_nodes xs g).1.nodes = g.nodes ++ new := by
  induction xs generalizing g with
  | nil => exact ⟨[], (List.append_nil _).symm⟩
  | cons x rest ih =>
    obtain ⟨n1, h1⟩ := as_node_extends x g
    obtain ⟨n2, h2⟩ := ih (as_node x g).1
    refine ⟨n1 ++ n2, ?_⟩
    rw [show (as_nodes (x :: rest) g).1 = (as_nodes rest (as_node x g).1).1
          from rfl,
        h2, h1, List.append_assoc]

theorem create_validate_error (f : NodeFactory) (op : String)
    (schema : Schema) (hreg : registry f.opset op = some schema)
    (attrs : List (String × AttrValue)) (e : FactoryError)
    (hval : validate_attributes schema attrs = .error e)
    (inputs : List Nat) (nm : Option String) (g : Graph) :
    f.create op inputs attrs nm g = (g, .error e) := by
  unfold NodeFactory.create
  rw [hreg]
  simp only [hval]

theorem create_reg_none (f : NodeFactory) (op : String)
    (hreg : registry f.opset op = none) (inputs : List Nat)
    (attrs : List (String × AttrValue)) (nm : Option String) (g : Graph) :
    f.create op inputs attrs nm g = (g, .error .UnknownOperator) := by
  unfold NodeFactory.create
  rw [hreg]

theorem create_validate_ok (f : NodeFactory) (op : String)
    (schema : Schema) (hreg : registry f.opset op = some schema)
    (attrs : List (String × AttrValue))
    (hval : validate_attributes schema attrs = .ok ())
    (inputs : List Nat) (nm : Option String) (g : Graph) :
    f.create op inputs attrs nm g =
      ({ nodes := g.nodes ++
          [{ id := g.counter, op := op, inputs := inputs, attrs := attrs,
             constVal := none,
             name := nm.getD (op ++ "_" ++ toString g.counter) }],
         counter := g.counter + 1 },
       .ok { id := g.counter, op := op, inputs := inputs, attrs := attrs,
             constVal := none,
             name := nm.getD (op ++ "_" ++ toString g.counter) }) := by
  unfold NodeFactory.create
  rw [hreg]
  simp only [hval]

theorem create_extends (f : NodeFactory) (op : String) (inputs : List Nat)
    (attrs : List (String × AttrValue)) (nm : Option String) (g : Graph) :
    ∃ new, (f.create op inputs attrs nm g).1.nodes = g.nodes ++ new := by
  cases hreg : registry f.opset op with
  | none =>
    rw [create_reg_none f op hreg inputs attrs nm g]
    exact ⟨[], (List.append_nil _).symm⟩
  | some schema =>
    cases hval : validate_attributes schema attrs with
    | error e =>
      rw [create_validate_error f op schema hreg attrs e hval inputs nm g]
      exact ⟨[], (List.append_nil _).symm⟩
    | ok u =>
      cases u
      rw [create_validate_ok f op schema hreg attrs hval inputs nm g]
      exact ⟨_, rfl⟩

theorem validate_ctc_bad_merge_repeated (mr cit slt : AttrValue)
    (h : attrKind mr ≠ some AttrKind.bool) :
    validate_attributes
      [("merge_repeated", .bool), ("classes_index_type", .str),
       ("sequence_length_type", .str)]
      (ctc_attributes mr cit slt)
      = .error (.AttributeTypeMismatch "merge_repeated") := by
  have h1 : check_supplied
      [("merge_repeated", .bool), ("classes_index_type", .str),
       ("sequence_length_type", .str)]
      (ctc_attributes mr cit slt)
      = if attrKind mr = some AttrKind.bool
        then check_supplied
          [("merge_repeated", .bool), ("classes_index_type", .str),
           ("sequence_length_type", .str)]
          [("classes_index_type", cit), ("sequence_length_type", slt)]
        else .error (.AttributeTypeMismatch "merge_repeated") := rfl
  unfold validate_attributes
  rw [h1, if_neg h]

/- ------------------------- claim theorems ------------------------- -/

/-- C1: `ctc_greedy_decoder_seq_len` passes the input list
`[data, sequence_length, blank_index]` to node creation when `blank_index`
is supplied and `[data, sequence_length]` when it is omitted (the omitted
optional input is not materialized as any node); with `blank_index` omitted
and the attribute parameters at their defaults, the constructed node has
exactly two input edges and attribute mapping
`{merge_repeated: true, classes_index_type: "i32",
sequence_length_type: "i32"}`. -/
theorem ctc_input_list_and_default_attributes
    (data sequence_length bi : NodeInput) (mr cit slt : AttrValue)
    (nm : Option String) (g : Graph) :
    (ctc_greedy_decoder_seq_len data sequence_length (some bi) mr cit slt
        nm g =
      _get_node_factory_opset6.create "CTCGreedyDecoderSeqLen"
        (as_nodes [data, sequence_length, bi] g).2
        (ctc_attributes mr cit slt) nm
        (as_nodes [data, sequence_length, bi] g).1) ∧
    (ctc_greedy_decoder_seq_len data sequence_length none mr cit slt nm g =
      _get_node_factory_opset6.create "CTCGreedyDecoderSeqLen"
        (as_nodes [data, sequence_length] g).2
        (ctc_attributes mr cit slt) nm
        (as_nodes [data, sequence_length] g).1) ∧
    (∃ node,
      (ctc_greedy_decoder_seq_len data sequence_length (g := g)).2
          = .ok node ∧
      node.inputs.length = 2 ∧
      node.attrs = [("merge_repeated", .bool true),
                    ("classes_index_type", .str "i32"),
                    ("sequence_length_type", .str "i32")]) ∧
    (∀ a b : Nat,
      (ctc_greedy_decoder_seq_len (.node a) (.node b) (g := g)).1.nodes
        = g.nodes ++
          [{ id := g.counter, op := "CTCGreedyDecoderSeqLen",
             inputs := [a, b],
             attrs := [("merge_repeated", .bool true),
                       ("classes_index_type", .str "i32"),
                       ("sequence_length_type", .str "i32")],
             constVal := none,
             name := "CTCGreedyDecoderSeqLen" ++ "_"
               ++ toString g.counter }]) := by
  refine ⟨rfl, rfl, ⟨_, rfl, ?_, rfl⟩, fun a b => rfl⟩
  show ((as_nodes [data, sequence_length] g).2).length = 2
  rw [as_nodes_length]
  rfl

/-- C2: `gather_elements` with `axis` omitted produces a node whose
attribute mapping is `{axis: 0}` and whose two input edges are exactly the
two supplied node references, in that order. -/
theorem gather_elements_default_axis (d i : Nat) (g : Graph) :
    ∃ node,
      gather_elements (.node d) (.node i) (g := g)
        = ({ nodes := g.nodes ++ [node], counter := g.counter + 1 },
           .ok node) ∧
      node.attrs = [("axis", AttrValue.int 0)] ∧
      node.inputs = [d, i] := by
  exact ⟨_, rfl, rfl, rfl⟩

/-- C9: passing Python `None` explicitly as `axis` hands the attribute
mapping `{axis: None}` to node creation; the documented default `0` is
substituted only when the argument is omitted, not when `None` is supplied
explicitly. -/
theorem gather_elements_axis_none_verbatim (d i : NodeInput)
    (nm : Option String) (g : Graph) :
    (gather_elements d i AttrValue.null nm g =
      _get_node_factory_opset6.create "GatherElements"
        (as_nodes [d, i] g).2 [("axis", AttrValue.null)] nm
        (as_nodes [d, i] g).1) ∧
    gather_attributes AttrValue.null = [("axis", AttrValue.null)] ∧
    ([("axis", AttrValue.null)] : List (String × AttrValue))
      ≠ [("axis", AttrValue.int 0)] ∧
    gather_elements d i (g := g)
      = gather_elements d i (AttrValue.int 0) none g := by
  exact ⟨rfl, rfl, by decide, rfl⟩

/-- C10: `ctc_greedy_decoder_seq_len` performs no enumeration or kind check
on `classes_index_type` and `sequence_length_type`: for every string values
of these two parameters it places them verbatim into the attribute mapping
and delegates to the opset6 node factory, raising nothing (in particular no
`InvalidEnumerationValue`) in this layer. -/
theorem ctc_no_enumeration_check_in_factory_layer (s1 s2 : String)
    (data sequence_length : NodeInput) (mr : AttrValue)
    (nm : Option String) (g : Graph) :
    ctc_attributes mr (.str s1) (.str s2)
      = [("merge_repeated", mr), ("classes_index_type", .str s1),
         ("sequence_length_type", .str s2)] ∧
    (ctc_greedy_decoder_seq_len data sequence_length none mr (.str s1)
        (.str s2) nm g =
      _get_node_factory_opset6.create "CTCGreedyDecoderSeqLen"
        (as_nodes [data, sequence_length] g).2
        (ctc_attributes mr (.str s1) (.str s2)) nm
        (as_nodes [data, sequence_length] g).1) ∧
    (∀ bi : NodeInput,
      ctc_greedy_decoder_seq_len data sequence_length (some bi) mr
          (.str s1) (.str s2) nm g =
        _get_node_factory_opset6.create "CTCGreedyDecoderSeqLen"
          (as_nodes [data, sequence_length, bi] g).2
          (ctc_attributes mr (.str s1) (.str s2)) nm
          (as_nodes [data, sequence_length, bi] g).1) := by
  exact ⟨rfl, rfl, fun bi => rfl⟩

/-- C3: a literal value passed as an input to `gather_elements` or
`ctc_greedy_decoder_seq_len` is materialized as a newly created Constant
node appended to the graph, whose embedded value equals the literal exactly
(round-trip) and to which the corresponding input edge of the resulting
node points, while an input that is already a node reference is passed
through unchanged. -/
theorem literal_input_constant_roundtrip (v : Value) (m : Nat) (g : Graph) :
    (∃ node c,
      gather_elements (.lit v) (.node m) (g := g)
        = ({ nodes := g.nodes ++ [c] ++ [node],
             counter := g.counter + 2 }, .ok node) ∧
      node.inputs = [c.id, m] ∧ c.op = "Constant" ∧ c.inputs = [] ∧
      c.constVal = some v) ∧
    (∃ node c,
      ctc_greedy_decoder_seq_len (.lit v) (.node m) (g := g)
        = ({ nodes := g.nodes ++ [c] ++ [node],
             counter := g.counter + 2 }, .ok node) ∧
      node.inputs = [c.id, m] ∧ c.op = "Constant" ∧ c.inputs = [] ∧
      c.constVal = some v) ∧
    (∀ x y : Nat, as_nodes [.node x, .node y] g = (g, [x, y])) := by
  exact ⟨⟨_, _, rfl, rfl, rfl, rfl, rfl⟩,
         ⟨_, _, rfl, rfl, rfl, rfl, rfl⟩,
         fun x y => rfl⟩

/-- C7: no constant deduplication — calling a factory function twice with
the same literal value produces two distinct, independent Constant node
vertices in the graph, even though their embedded values are equal. -/
theorem no_constant_deduplication (v : Value) (g : Graph) :
    ∃ c1 c2 : Node,
      c1 ∈ ((gather_elements (.lit v) (.node 0)
              (g := (gather_elements (.lit v) (.node 0) (g := g)).1)).1).nodes ∧
      c2 ∈ ((gather_elements (.lit v) (.node 0)
              (g := (gather_elements (.lit v) (.node 0) (g := g)).1)).1).nodes ∧
      c1.id ≠ c2.id ∧ c1.op = "Constant" ∧ c2.op = "Constant" ∧
      c1.constVal = some v ∧ c2.constVal = some v := by
  have hN : ((gather_elements (.lit v) (.node 0)
        (g := (gather_elements (.lit v) (.node 0) (g := g)).1)).1).nodes
      = g.nodes
        ++ [{ id := g.counter, op := "Constant", inputs := [], attrs := [],
              constVal := some v,
              name := "Constant_" ++ toString g.counter }]
        ++ [{ id := g.counter + 1, op := "GatherElements",
              inputs := [g.counter, 0], attrs := [("axis", .int 0)],
              constVal := none,
              name := "GatherElements" ++ "_" ++ toString (g.counter + 1) }]
        ++ [{ id := g.counter + 2, op := "Constant", inputs := [],
              attrs := [], constVal := some v,
              name := "Constant_" ++ toString (g.counter + 2) }]
        ++ [{ id := g.counter + 3, op := "GatherElements",
              inputs := [g.counter + 2, 0], attrs := [("axis", .int 0)],
              constVal := none,
              name := "GatherElements" ++ "_"
                ++ toString (g.counter + 3) }] := rfl
  refine ⟨{ id := g.counter, op := "Constant", inputs := [], attrs := [],
            constVal := some v, name := "Constant_" ++ toString g.counter },
          { id := g.counter + 2, op := "Constant", inputs := [], attrs := [],
            constVal := some v,
            name := "Constant_" ++ toString (g.counter + 2) },
          ?_, ?_, ?_, rfl, rfl, rfl, rfl⟩
  · rw [hN]; simp
  · rw [hN]; simp
  · show g.counter ≠ g.counter + 2
    omega

/-- C8: the factory functions never mutate caller-supplied data — the
attribute mapping handed to node creation is a freshly built mapping
determined solely by the argument values, and the caller's existing graph
nodes are preserved unchanged (the call only appends new nodes). -/
theorem factory_calls_preserve_caller_data
    (data sequence_length indices : NodeInput)
    (blank_index : Option NodeInput) (mr cit slt ax : AttrValue)
    (nm : Option String) (g : Graph) :
    ctc_attributes mr cit slt
      = [("merge_repeated", mr), ("classes_index_type", cit),
         ("sequence_length_type", slt)] ∧
    gather_attributes ax = [("axis", ax)] ∧
    (gather_elements data indices ax nm g =
      _get_node_factory_opset6.create "GatherElements"
        (as_nodes [data, indices] g).2 (gather_attributes ax) nm
        (as_nodes [data, indices] g).1) ∧
    (∃ new,
      (ctc_greedy_decoder_seq_len data sequence_length blank_index mr cit
          slt nm g).1.nodes = g.nodes ++ new) ∧
    (∃ new,
      (gather_elements data indices ax nm g).1.nodes = g.nodes ++ new) := by
  refine ⟨rfl, rfl, rfl, ?_, ?_⟩
  · cases blank_index with
    | none =>
      obtain ⟨n1, h1⟩ := as_nodes_extends [data, sequence_length] g
      obtain ⟨n2, h2⟩ := create_extends _get_node_factory_opset6
        "CTCGreedyDecoderSeqLen" (as_nodes [data, sequence_length] g).2
        (ctc_attributes mr cit slt) nm (as_nodes [data, sequence_length] g).1
      exact ⟨n1 ++ n2, by
        rw [show (ctc_greedy_decoder_seq_len data sequence_length none mr
              cit slt nm g).1
            = (_get_node_factory_opset6.create "CTCGreedyDecoderSeqLen"
                (as_nodes [data, sequence_length] g).2
                (ctc_attributes mr cit slt) nm
                (as_nodes [data, sequence_length] g).1).1 from rfl,
          h2, h1, List.append_assoc]⟩
    | some bi =>
      obtain ⟨n1, h1⟩ := as_nodes_extends [data, sequence_length, bi] g
      obtain ⟨n2, h2⟩ := create_extends _get_node_factory_opset6
        "CTCGreedyDecoderSeqLen" (as_nodes [data, sequence_length, bi] g).2
        (ctc_attributes mr cit slt) nm
        (as_nodes [data, sequence_length, bi] g).1
      exact ⟨n1 ++ n2, by
        rw [show (ctc_greedy_decoder_seq_len data sequence_length (some bi)
              mr cit slt nm g).1
            = (_get_node_factory_opset6.create "CTCGreedyDecoderSeqLen"
                (as_nodes [data, sequence_length, bi] g).2
                (ctc_attributes mr cit slt) nm
                (as_nodes [data, sequence_length, bi] g).1).1 from rfl,
          h2, h1, List.append_assoc]⟩
  · obtain ⟨n1, h1⟩ := as_nodes_extends [data, indices] g
    obtain ⟨n2, h2⟩ := create_extends _get_node_factory_opset6
      "GatherElements" (as_nodes [data, indices] g).2
      (gather_attributes ax) nm (as_nodes [data, indices] g).1
    exact ⟨n1 ++ n2, by
      rw [show (gather_elements data indices ax nm g).1
          = (_get_node_factory_opset6.create "GatherElements"
              (as_nodes [data, indices] g).2 (gather_attributes ax) nm
              (as_nodes [data, indices] g).1).1 from rfl,
        h2, h1, List.append_assoc]⟩

/-- C4 counterexample: calling `ctc_greedy_decoder_seq_len` with a literal
`data` input and a string where a boolean is declared for `merge_repeated`
fails with `AttributeTypeMismatch`, yet the graph's node count is NOT
unchanged: a Constant node synthesized for the literal input remains,
because input normalization (source lines 79–82) runs before attribute
validation inside node creation (source line 90). -/
theorem ctc_wrong_kind_leaves_synthesized_constant :
    ((ctc_greedy_decoder_seq_len (.lit (.scalar 5)) (.node 0) none
        (.str "True") (.str "i32") (.str "i32") none emptyGraph).2
      = .error (.AttributeTypeMismatch "merge_repeated")) ∧
    (ctc_greedy_decoder_seq_len (.lit (.scalar 5)) (.node 0) none
        (.str "True") (.str "i32") (.str "i32") none
        emptyGraph).1.nodes.length ≠ emptyGraph.nodes.length ∧
    (∃ c ∈ (ctc_greedy_decoder_seq_len (.lit (.scalar 5)) (.node 0) none
        (.str "True") (.str "i32") (.str "i32") none emptyGraph).1.nodes,
      c.op = "Constant" ∧ c.constVal = some (.scalar 5)) := by
  refine ⟨rfl, by decide, ?_⟩
  exact ⟨{ id := 0, op := "Constant", inputs := [], attrs := [],
           constVal := some (.scalar 5), name := "Constant_" ++ toString 0 },
         by decide, rfl, rfl⟩

/-- C4 amended: a call to `ctc_greedy_decoder_seq_len` supplying a value of
the wrong kind for the boolean `merge_repeated` attribute fails with
`AttributeTypeMismatch` and no operator node is added to the graph; every
node added by the failed call is a Constant node synthesized for a literal
input during input normalization, which precedes attribute validation. -/
theorem ctc_wrong_kind_attribute_fails (data sequence_length : NodeInput)
    (blank_index : Option NodeInput) (mr cit slt : AttrValue)
    (nm : Option String) (g : Graph)
    (h : attrKind mr ≠ some AttrKind.bool) :
    ((ctc_greedy_decoder_seq_len data sequence_length blank_index mr cit
        slt nm g).2 = .error (.AttributeTypeMismatch "merge_repeated")) ∧
    ∀ n ∈ (ctc_greedy_decoder_seq_len data sequence_length blank_index mr
        cit slt nm g).1.nodes, n ∈ g.nodes ∨ n.op = "Constant" := by
  have hval := validate_ctc_bad_merge_repeated mr cit slt h
  cases blank_index with
  | none =>
    have heq : ctc_greedy_decoder_seq_len data sequence_length none mr cit
        slt nm g
      = _get_node_factory_opset6.create "CTCGreedyDecoderSeqLen"
          (as_nodes [data, sequence_length] g).2
          (ctc_attributes mr cit slt) nm
          (as_nodes [data, sequence_length] g).1 := rfl
    rw [heq, create_validate_error _get_node_factory_opset6
      "CTCGreedyDecoderSeqLen" _ rfl _ _ hval]
    exact ⟨rfl, as_nodes_op_constant [data, sequence_length] g⟩
  | some bi =>
    have heq : ctc_greedy_decoder_seq_len data sequence_length (some bi) mr
        cit slt nm g
      = _get_node_factory_opset6.create "CTCGreedyDecoderSeqLen"
          (as_nodes [data, sequence_length, bi] g).2
          (ctc_attributes mr cit slt) nm
          (as_nodes [data, sequence_length, bi] g).1 := rfl
    rw [heq, create_validate_error _get_node_factory_opset6
      "CTCGreedyDecoderSeqLen" _ rfl _ _ hval]
    exact ⟨rfl, as_nodes_op_constant [data, sequence_length, bi] g⟩

/-- Witness for the C4 amended theorem at a concrete input. -/
theorem ctc_wrong_kind_attribute_fails_witness :
    ((ctc_greedy_decoder_seq_len (.lit (.scalar 5)) (.node 0) none
        (.str "True") (.str "i32") (.str "i32") none emptyGraph).2
      = .error (.AttributeTypeMismatch "merge_repeated")) ∧
    ∀ n ∈ (ctc_greedy_decoder_seq_len (.lit (.scalar 5)) (.node 0) none
        (.str "True") (.str "i32") (.str "i32") none emptyGraph).1.nodes,
      n ∈ emptyGraph.nodes ∨ n.op = "Constant" :=
  ctc_wrong_kind_attribute_fails (.lit (.scalar 5)) (.node 0) none
    (.str "True") (.str "i32") (.str "i32") none emptyGraph (by decide)

/-- C5: determinism — two identical sequences of factory calls of this
module (same inputs, same attribute arguments, no explicit names) starting
from the same fresh graph produce identical graphs: same operator types,
same attribute values, same edge topology, and identical auto-generated
node names. -/
theorem construction_is_deterministic (cs : List Call) (g g1 g2 : Graph)
    (h1 : BuildSeq cs g g1) (h2 : BuildSeq cs g g2) : g1 = g2 := by
  induction h1 generalizing g2 with
  | nil g => cases h2; rfl
  | cons c cs g g' hrest ih =>
    cases h2 with
    | cons _ _ _ _ htail => exact ih g2 htail

/-- Witness for the C5 theorem at a concrete call sequence. -/
theorem construction_is_deterministic_witness :
    runCall (Call.gather (.node 0) (.node 1) (.int 0)) emptyGraph
      = runCall (Call.gather (.node 0) (.node 1) (.int 0)) emptyGraph :=
  construction_is_deterministic
    [Call.gather (.node 0) (.node 1) (.int 0)] emptyGraph _ _
    (BuildSeq.cons _ _ _ _ (BuildSeq.nil _))
    (BuildSeq.cons _ _ _ _ (BuildSeq.nil _))

/-- C6: for every operator name not registered in the opset6 version bound
by this module, a create call through the opset6 node factory fails with
`UnknownOperator`, regardless of the inputs, attributes, name and graph —
the factory consults only the "opset6" registry entry and never falls back
to a different opset version. -/
theorem opset6_unknown_operator_fails (op : String)
    (h : registry "opset6" op = none) (inputs : List Nat)
    (attrs : List (String × AttrValue)) (nm : Option String) (g : Graph) :
    _get_node_factory_opset6.create op inputs attrs nm g
      = (g, .error .UnknownOperator) :=
  create_reg_none _get_node_factory_opset6 op h inputs attrs nm g

/-- Witness for the C6 theorem at a concrete unregistered operator name. -/
theorem opset6_unknown_operator_fails_witness :
    _get_node_factory_opset6.create "NoSuchOp" [] [] none emptyGraph
      = (emptyGraph, .error .UnknownOperator) :=
  opset6_unknown_operator_fails "NoSuchOp" rfl [] [] none emptyGraph

end NGraph
